import Mathlib

/-!
# Verification of `hw5/pipeline/predict.py`

A shallow embedding of the module `hw5/pipeline/predict.py`, which wraps
sklearn classifiers: a `Trainer` class fitting models over a tuple of
training dataframes, and a `Tester` class producing prediction-result
tables from fitted models over a tuple of test dataframes.

Modelling choices:
* A pandas dataframe is a header (list of column names) plus a list of
  rows; cell values are rationals (the result tables are built with
  `dtype=float`, and no claim depends on floating-point rounding).
* A fitted sklearn model is opaque to this module.  It is embedded as a
  class tag (is it an sklearn `Pipeline`, and if so is its `svm` step a
  `LinearSVC`?) together with its three per-row scoring functions
  `decision_function`, `predict_proba` (a pair: probability of class 0
  and of class 1) and `predict`.
* The sklearn constructors-plus-`fit` calls are out of scope (external
  library); they are abstracted as a `Library` record of fitting
  functions, and theorems quantify over it.
* `Exception` / `IndexError` raising is embedded with `Except String`.
* `PredictionResult`, `ResultCollection` and their methods live in
  `pipeline/result.py`, which is not under `src/`; they are modelled
  from the spec where needed (see the individual doc comments).
-/

set_option autoImplicit false

/-- A pandas dataframe: column names plus rows of rational cell values. -/
structure DataFrame where
  header : List String
  rows : List (List ℚ)
deriving DecidableEq, Repr

/-- One row of `df.drop(columns=[c]).values`: the entries of `row` that sit
under a column name other than `c`. -/
def dropRow (header : List String) (c : String) (row : List ℚ) : List ℚ :=
  ((header.zip row).filter (fun p => p.1 ≠ c)).map Prod.snd

/-- `df.drop(columns=[c])`: remove column `c` (name and per-row entries). -/
def DataFrame.drop (df : DataFrame) (c : String) : DataFrame :=
  ⟨df.header.filter (fun s => s ≠ c), df.rows.map (dropRow df.header c)⟩

/-- The entry of `row` under column name `c` (first occurrence). -/
def lookupVal (header : List String) (c : String) (row : List ℚ) : ℚ :=
  ((header.zip row).lookup c).getD 0

/-- `df[c].values`: the column of values under name `c`. -/
def DataFrame.getCol (df : DataFrame) (c : String) : List ℚ :=
  df.rows.map (lookupVal df.header c)

/-- The pandas call `df.drop(columns=[c])` with its default
`inplace=False`: the first component is the returned new frame, the
second is the state of the receiver `df` after the call (unchanged,
since pandas copies). -/
def DataFrame.dropCall (df : DataFrame) (c : String) : DataFrame × DataFrame :=
  (df.drop c, df)

/-- The pandas call `df[c].values`: returned values, and the state of the
receiver after the call (column selection does not mutate). -/
def DataFrame.getColCall (df : DataFrame) (c : String) : List ℚ × DataFrame :=
  (df.getCol c, df)

/-- The class of a fitted model, as far as the `isinstance` checks in
`Tester._test` can observe it: an sklearn `Pipeline` (with the flag
telling whether its `svm` step is a `LinearSVC`), or any other
classifier. -/
inductive ModelClass where
  | pipeline (svmStepIsLinearSVC : Bool)
  | plain
deriving DecidableEq, Repr

/-- An opaque fitted sklearn model: its class tag and its per-row scoring
functions.  `predict_proba` returns the pair (probability of class 0,
probability of class 1); the source uses column 1, the positive class. -/
structure Model where
  cls : ModelClass
  decision_function : List ℚ → ℚ
  predict_proba : List ℚ → ℚ × ℚ
  predict : List ℚ → ℚ

/-- The condition of `predict.py:210`:
`isinstance(model, Pipeline) and isinstance(model.named_steps.svm, LinearSVC)`. -/
def Model.isLinearSVCPipeline (m : Model) : Bool :=
  match m.cls with
  | .pipeline b => b
  | .plain => false

/-- `PredictionResult` (from `pipeline/result.py`, not under `src/`).
Modelled from the spec: a thin container around the per-row result table
(actual label, predicted score, predicted class). -/
structure PredictionResult where
  table : DataFrame
deriving DecidableEq, Repr

/-- Modelled from the spec: `PredictionResult.with_threshold` lives in
`pipeline/result.py`, which is not under `src/`.  Per the spec's data
model (per-row actual label, predicted score and predicted class,
optionally reshaped across thresholds) and the source comment at
`predict.py:216` (`y_predict = model.predict(X)  # ONLY USED IF THRESHOLD
NOT GIVEN!`), applying a threshold recomputes the predicted-class column
from the score column, leaving the other two columns and the shape of
the table unchanged. -/
def PredictionResult.with_threshold (r : PredictionResult) (t : ℚ) : PredictionResult :=
  ⟨⟨r.table.header,
    r.table.rows.map (fun row =>
      [row.getD 0 0, row.getD 1 0, if t ≤ row.getD 1 0 then 1 else 0])⟩⟩

/-- Modelled from the spec: `PredictionResult.with_thresholds` (from
`pipeline/result.py`, not under `src/`) reshapes one result across a
list of thresholds, one thresholded result per threshold. -/
def PredictionResult.with_thresholds (r : PredictionResult) (ts : List ℚ) :
    List PredictionResult :=
  ts.map r.with_threshold

/-- `ResultCollection` (from `pipeline/result.py`, not under `src/`).
Modelled from the spec: a thin container aggregating named groups of
prediction results. -/
structure ResultCollection where
  entries : List (String × List PredictionResult)
deriving DecidableEq, Repr

/-- Modelled from the spec: `ResultCollection()`, the empty collection. -/
def ResultCollection.new : ResultCollection := ⟨[]⟩

/-- Modelled from the spec: `ResultCollection.from_stack` stacks a list of
results (the results of one conceptual model over several splits or
thresholds, with an optional index) into a collection. -/
def ResultCollection.from_stack (results : List PredictionResult)
    (index : Option (List ℚ)) : ResultCollection :=
  ⟨[(if index.isSome then "indexed" else "stack", results)]⟩

/-- The argument of `ResultCollection.join`: the source passes either a
single `PredictionResult` or a whole `ResultCollection`. -/
inductive Joinable where
  | result (r : PredictionResult)
  | collection (c : ResultCollection)

/-- Modelled from the spec: `ResultCollection.join` adds results under a
model name to the collection. -/
def ResultCollection.join (c : ResultCollection) (name : String) (j : Joinable) :
    ResultCollection :=
  match j with
  | .result r => ⟨c.entries ++ [(name, [r])]⟩
  | .collection c2 => ⟨c.entries ++ c2.entries.map (fun e => (name, e.2))⟩

/-- What a `Trainer` training method returns: `models if len(models) > 1
else models[0]` — a bare model for a single training set, a list of
models otherwise. -/
inductive TrainOutput where
  | one (m : Model)
  | many (ms : List Model)

/-- The number of fitted models carried by a training method's return value. -/
def TrainOutput.count : TrainOutput → ℕ
  | .one _ => 1
  | .many ms => ms.length

/-- The sklearn constructor-plus-`fit` calls made by `Trainer`, abstracted:
each field takes the hyperparameters the source forwards, then the
feature matrix `X` and label vector `y`, and returns the fitted model.
The fitting algorithms themselves are external-library code, explicitly
out of scope. -/
structure Library where
  fitDummy : Option Int → List (List ℚ) → List ℚ → Model
  fitLogistic : ℚ → Option Int → List (List ℚ) → List ℚ → Model
  fitDecisionTree : Option ℕ → Option Int → List (List ℚ) → List ℚ → Model
  fitKNearest : ℕ → List (List ℚ) → List ℚ → Model
  fitLinearSVM : ℚ → Option Int → List (List ℚ) → List ℚ → Model
  fitForest : ℕ → Option Int → List (List ℚ) → List ℚ → Model
  fitBagging : ℕ → Option Int → List (List ℚ) → List ℚ → Model
  fitBoosting : ℕ → Option Int → List (List ℚ) → List ℚ → Model

/-- The `Trainer` class: a tuple of training dataframes, the label column
name, and the random seed. -/
structure Trainer where
  dfs : List DataFrame
  label_colname : String
  seed : Option Int

/-- One iteration of `_training_data` (`predict.py:173`), with the state
of the dataframe threaded through the two pandas calls:
`X = df.drop(columns=[label]).values` and `y = df[label].values`. -/
def trainingDataStep (label : String) (df : DataFrame) :
    (List (List ℚ) × List ℚ) × DataFrame :=
  let xcall := df.dropCall label
  let ycall := xcall.2.getColCall label
  ((xcall.1.rows, ycall.1), ycall.2)

/-- `Trainer._training_data`, with the final state of each input dataframe
returned alongside the yielded `(X, y)` pairs. -/
def Trainer.trainingDataS (dfs : List DataFrame) (label : String) :
    List (List (List ℚ) × List ℚ) × List DataFrame :=
  ((dfs.map (trainingDataStep label)).map Prod.fst,
   (dfs.map (trainingDataStep label)).map Prod.snd)

/-- `Trainer._training_data` (`predict.py:173`): the `(X, y)` pairs. -/
def Trainer.training_data (dfs : List DataFrame) (label : String) :
    List (List (List ℚ) × List ℚ) :=
  (Trainer.trainingDataS dfs label).1

/-- The shared body of the eight training methods of `Trainer`: fit one
model per training dataframe, then return the list when there is more
than one model, `models[0]` when there is exactly one, and raise an
`IndexError` (from `models[0]` on an empty list) when there is none. -/
def Trainer.trainWith (fit : List (List ℚ) → List ℚ → Model) (t : Trainer) :
    Except String TrainOutput :=
  match (Trainer.training_data t.dfs t.label_colname).map (fun xy => fit xy.1 xy.2) with
  | [] => .error "IndexError: list index out of range"
  | [m] => .ok (.one m)
  | m :: m2 :: ms => .ok (.many (m :: m2 :: ms))

/-- `Trainer.dummy` (`predict.py:27`). -/
def Trainer.dummy (lib : Library) (t : Trainer) : Except String TrainOutput :=
  t.trainWith (lib.fitDummy t.seed)

/-- `Trainer.logistic_regression` (`predict.py:40`); source default `c=1`. -/
def Trainer.logistic_regression (lib : Library) (t : Trainer) (c : ℚ) :
    Except String TrainOutput :=
  t.trainWith (lib.fitLogistic c t.seed)

/-- `Trainer.decision_tree` (`predict.py:55`); source default `max_depth=None`. -/
def Trainer.decision_tree (lib : Library) (t : Trainer) (max_depth : Option ℕ) :
    Except String TrainOutput :=
  t.trainWith (lib.fitDecisionTree max_depth t.seed)

/-- `Trainer.k_nearest` (`predict.py:69`); source default `k=5`. -/
def Trainer.k_nearest (lib : Library) (t : Trainer) (k : ℕ) :
    Except String TrainOutput :=
  t.trainWith (lib.fitKNearest k)

/-- `Trainer.linear_svm` (`predict.py:82`); source default `c=1`.  The
fitted model is a `Pipeline` of a `StandardScaler` and a `LinearSVC`. -/
def Trainer.linear_svm (lib : Library) (t : Trainer) (c : ℚ) :
    Except String TrainOutput :=
  t.trainWith (lib.fitLinearSVM c t.seed)

/-- `Trainer.forest` (`predict.py:98`); source default `n_trees=10`. -/
def Trainer.forest (lib : Library) (t : Trainer) (n_trees : ℕ) :
    Except String TrainOutput :=
  t.trainWith (lib.fitForest n_trees t.seed)

/-- `Trainer.bagging` (`predict.py:112`); source default `n_estimators=10`. -/
def Trainer.bagging (lib : Library) (t : Trainer) (n_estimators : ℕ) :
    Except String TrainOutput :=
  t.trainWith (lib.fitBagging n_estimators t.seed)

/-- `Trainer.boosting` (`predict.py:128`); source default `n_estimators=10`. -/
def Trainer.boosting (lib : Library) (t : Trainer) (n_estimators : ℕ) :
    Except String TrainOutput :=
  t.trainWith (lib.fitBoosting n_estimators t.seed)

/-- The keyword arguments a `parameters` entry of `train_all` may carry
(each training method takes at most one hyperparameter). -/
structure HPDict where
  c : Option ℚ
  max_depth : Option (Option ℕ)
  k : Option ℕ
  n_trees : Option ℕ
  n_estimators : Option ℕ

/-- The empty keyword-argument dictionary. -/
def hpEmpty : HPDict := ⟨none, none, none, none, none⟩

/-- The loop body of `Trainer.train_all` (`predict.py:163`), run over the
method table.  Note `predict.py:164`: the guard body is the bare
expression `next` — a reference to the builtin, not a `continue`
statement — so membership in `exclude` is computed and then discarded,
and every method is trained regardless. -/
def Trainer.runMethods (parameters : List (String × HPDict)) (exclude : List String) :
    List (String × (HPDict → Except String TrainOutput)) →
    Except String (List (String × TrainOutput))
  | [] => .ok []
  | nf :: rest =>
    let _ := exclude.contains nf.1
    match nf.2 ((parameters.lookup nf.1).getD hpEmpty) with
    | .error e => .error e
    | .ok m =>
      match Trainer.runMethods parameters exclude rest with
      | .error e => .error e
      | .ok l => .ok ((nf.1, m) :: l)

/-- The method table of `Trainer.train_all` (`predict.py:150`), each entry
reading its hyperparameters from its keyword dictionary
(`params = parameters.get(name) or` the empty dictionary, then
`func(**params)`, so a missing key falls back to the method default). -/
def Trainer.methodTable (lib : Library) (t : Trainer) :
    List (String × (HPDict → Except String TrainOutput)) :=
  [("dummy", fun _ => t.dummy lib),
   ("logistic_regression", fun hp => t.logistic_regression lib (hp.c.getD 1)),
   ("decision_tree", fun hp => t.decision_tree lib (hp.max_depth.getD none)),
   ("k_nearest", fun hp => t.k_nearest lib (hp.k.getD 5)),
   ("linear_svm", fun hp => t.linear_svm lib (hp.c.getD 1)),
   ("forest", fun hp => t.forest lib (hp.n_trees.getD 10)),
   ("bagging", fun hp => t.bagging lib (hp.n_estimators.getD 10)),
   ("boosting", fun hp => t.boosting lib (hp.n_estimators.getD 10))]

/-- `Trainer.train_all` (`predict.py:144`): train every method in table
order, collecting `(name, model)` pairs. -/
def Trainer.train_all (lib : Library) (t : Trainer)
    (parameters : List (String × HPDict)) (exclude : List String) :
    Except String (List (String × TrainOutput)) :=
  Trainer.runMethods parameters exclude (Trainer.methodTable lib t)

/-- The `Tester` class: a tuple of test dataframes and the label column name. -/
structure Tester where
  dfs : List DataFrame
  label_colname : String

/-- `Tester._test_data` (`predict.py:261`), with the final state of each
input dataframe returned alongside the yielded `(X, y_actual)` pairs.
Its body is identical to `Trainer._training_data`. -/
def Tester.testDataS (dfs : List DataFrame) (label : String) :
    List (List (List ℚ) × List ℚ) × List DataFrame :=
  ((dfs.map (trainingDataStep label)).map Prod.fst,
   (dfs.map (trainingDataStep label)).map Prod.snd)

/-- `Tester._test_data` (`predict.py:261`): the `(X, y_actual)` pairs. -/
def Tester.test_data (dfs : List DataFrame) (label : String) :
    List (List (List ℚ) × List ℚ) :=
  (Tester.testDataS dfs label).1

/-- The error message of `predict.py:205`. -/
def mismatchMsg (nModels nDfs : ℕ) : String :=
  "Number of models (" ++ toString nModels ++ ") does not match test sets ("
    ++ toString nDfs ++ ")."

/-- Python truthiness of the `threshold` keyword at `predict.py:223`
(`if threshold:`): `None` and `0` are falsy, every other number truthy. -/
def optionTruthy (threshold : Option ℚ) : Bool :=
  match threshold with
  | none => false
  | some t => decide (t ≠ 0)

/-- The loop body of `Tester._test` (`predict.py:209`): for one
`(X, y_actual)` pair and its model, compute the score column (decision
function for the wrapped linear-SVC pipeline, positive-class
probability otherwise), the predicted labels, and assemble the
three-column result table. -/
def testOne (xym : (List (List ℚ) × List ℚ) × Model) : PredictionResult :=
  let X := xym.1.1
  let y_actual := xym.1.2
  let m := xym.2
  let y_score := X.map (fun x =>
    if m.isLinearSVCPipeline then m.decision_function x else (m.predict_proba x).2)
  let y_predict := X.map m.predict
  ⟨⟨["actual", "score", "predict"],
    List.zipWith (fun a sp => [a, sp.1, sp.2]) y_actual (y_score.zip y_predict)⟩⟩

/-- `Tester._test` (`predict.py:203`): raise when the model count differs
from the test-set count; otherwise build one result per
`(test set, model)` pair, and apply the threshold to each result when
the threshold is truthy. -/
def Tester.internal_test (tester : Tester) (models : List Model)
    (threshold : Option ℚ) : Except String (List PredictionResult) :=
  if models.length ≠ tester.dfs.length then
    .error (mismatchMsg models.length tester.dfs.length)
  else
    let results :=
      ((Tester.test_data tester.dfs tester.label_colname).zip models).map testOne
    if optionTruthy threshold then
      .ok (results.map (fun r => r.with_threshold (threshold.getD 0)))
    else
      .ok results

/-- What `Tester.test` returns: a single result, or a stacked collection
when there is more than one split. -/
inductive TestOutput where
  | single (r : PredictionResult)
  | stacked (c : ResultCollection)
deriving DecidableEq, Repr

/-- `Tester.test` (`predict.py:189`).  Note `predict.py:196`: the call is
`self._test(*models)` — the method's own `threshold` keyword is **not**
forwarded, so `_test` runs with its default `threshold=None`.  With one
result, return `results[0]` (an `IndexError` when the tuple of test
sets is empty); with more, stack them. -/
def Tester.test (tester : Tester) (models : List Model) (threshold : Option ℚ) :
    Except String TestOutput :=
  match Tester.internal_test tester models none with
  | .error e => .error e
  | .ok results =>
    if results.length > 1 then
      .ok (.stacked (ResultCollection.from_stack results none))
    else
      match results with
      | [] => .error "IndexError: list index out of range"
      | r :: _ => .ok (.single r)

/-- The loop of `Tester.evaluate` (`predict.py:234`): for each named model,
`result = self._test(model)[0]` (a single positional model, threshold
left at its default `None`; `[0]` raises an `IndexError` on an empty
result list), then join into the collection, reshaped across
`thresholds` when that list is truthy (`if thresholds:` — `None` and
the empty list are falsy). -/
def Tester.evalLoop (tester : Tester) (thresholds : Option (List ℚ))
    (collection : ResultCollection) :
    List (String × Model) → Except String ResultCollection
  | [] => .ok collection
  | nm :: rest =>
    match Tester.internal_test tester [nm.2] none with
    | .error e => .error e
    | .ok [] => .error "IndexError: list index out of range"
    | .ok (result :: _) =>
      match thresholds with
      | some ts =>
        if ts ≠ [] then
          Tester.evalLoop tester thresholds
            (collection.join nm.1
              (.collection (ResultCollection.from_stack (result.with_thresholds ts) (some ts))))
            rest
        else
          Tester.evalLoop tester thresholds (collection.join nm.1 (.result result)) rest
      | none =>
        Tester.evalLoop tester thresholds (collection.join nm.1 (.result result)) rest

/-- `Tester.evaluate` (`predict.py:229`). -/
def Tester.evaluate (tester : Tester) (model_dict : List (String × Model))
    (thresholds : Option (List ℚ)) : Except String ResultCollection :=
  Tester.evalLoop tester thresholds ResultCollection.new model_dict

/-- The loop of `Tester.evaluate_splits` (`predict.py:248`): each entry
carries one model per split; `threshold` **is** forwarded here. -/
def Tester.evalSplitsLoop (tester : Tester) (threshold : Option ℚ)
    (collection : ResultCollection) :
    List (String × List Model) → Except String ResultCollection
  | [] => .ok collection
  | nm :: rest =>
    match Tester.internal_test tester nm.2 threshold with
    | .error e => .error e
    | .ok results =>
      Tester.evalSplitsLoop tester threshold
        (collection.join nm.1 (.collection (ResultCollection.from_stack results none)))
        rest

/-- `Tester.evaluate_splits` (`predict.py:248`). -/
def Tester.evaluate_splits (tester : Tester) (model_dict : List (String × List Model))
    (threshold : Option ℚ) : Except String ResultCollection :=
  Tester.evalSplitsLoop tester threshold ResultCollection.new model_dict

/-! ## Concrete instances used to exercise the embedding -/

/-- A one-row test dataframe with one feature column and the label column. -/
def dfEx : DataFrame := ⟨["f", "label"], [[2, 1]]⟩

/-- A second one-row dataframe, for a two-split tester. -/
def dfEx2 : DataFrame := ⟨["f", "label"], [[3, 0]]⟩

/-- A plain (non-pipeline) fitted model with constant scoring functions. -/
def modelEx : Model := ⟨.plain, fun _ => 0, fun _ => (1/4, 3/4), fun _ => 5⟩

/-- A stub model returned by the concrete library instance. -/
def modelStub : Model := ⟨.plain, fun _ => 0, fun _ => (0, 0), fun _ => 0⟩

/-- A concrete library instance: every fit returns a stub model, except the
linear-SVM fit, which returns a linear-SVC pipeline. -/
def lib0 : Library :=
  ⟨fun _ _ _ => modelStub, fun _ _ _ _ => modelStub, fun _ _ _ _ => modelStub,
   fun _ _ _ => modelStub,
   fun _ _ _ _ => ⟨.pipeline true, fun _ => 0, fun _ => (0, 0), fun _ => 0⟩,
   fun _ _ _ _ => modelStub, fun _ _ _ _ => modelStub, fun _ _ _ _ => modelStub⟩

/-- A trainer constructed with no training dataframes. -/
def trainer0 : Trainer := ⟨[], "label", none⟩

/-- A trainer constructed with one training dataframe. -/
def trainer1 : Trainer := ⟨[dfEx], "label", none⟩

/-- A tester holding a single test dataframe. -/
def testerEx : Tester := ⟨[dfEx], "label"⟩

/-- A tester holding two test dataframes. -/
def tester2 : Tester := ⟨[dfEx, dfEx2], "label"⟩

/-- The result table produced by `testerEx` with `modelEx`. -/
def prEx : PredictionResult := ⟨⟨["actual", "score", "predict"], [[1, 3/4, 5]]⟩⟩

/-! ## Supporting lemmas -/

theorem trainingData_eq (dfs : List DataFrame) (label : String) :
    Trainer.training_data dfs label
      = dfs.map (fun df => ((df.drop label).rows, df.getCol label)) := by
  simp only [Trainer.training_data, Trainer.trainingDataS, List.map_map]
  rfl

theorem testData_eq (dfs : List DataFrame) (label : String) :
    Tester.test_data dfs label
      = dfs.map (fun df => ((df.drop label).rows, df.getCol label)) := by
  simp only [Tester.test_data, Tester.testDataS, List.map_map]
  rfl

theorem drop_rows_length (df : DataFrame) (c : String) :
    (df.drop c).rows.length = df.rows.length := by
  simp [DataFrame.drop]

theorem getCol_length (df : DataFrame) (c : String) :
    (df.getCol c).length = df.rows.length := by
  simp [DataFrame.getCol]

theorem zipWith_proj_eq (l1 l2 l3 : List ℚ) (h12 : l1.length = l2.length)
    (h23 : l2.length = l3.length) :
    List.zipWith (fun _ sp => sp.1) l1 (l2.zip l3) = l2 := by
  induction l1 generalizing l2 l3 with
  | nil =>
    cases l2 with
    | nil => rfl
    | cons b bs => simp at h12
  | cons a as ih =>
    cases l2 with
    | nil => simp at h12
    | cons b bs =>
      cases l3 with
      | nil => simp at h23
      | cons c cs =>
        simp only [List.zip_cons_cons, List.zipWith_cons_cons, List.cons.injEq]
        exact ⟨trivial, ih bs cs (by simpa using h12) (by simpa using h23)⟩

theorem testOne_rows_length (label : String) (df : DataFrame) (m : Model) :
    (testOne (((df.drop label).rows, df.getCol label), m)).table.rows.length
      = df.rows.length := by
  simp [testOne, List.length_zipWith, List.length_zip, drop_rows_length, getCol_length]

theorem with_threshold_rows_length (r : PredictionResult) (t : ℚ) :
    (r.with_threshold t).table.rows.length = r.table.rows.length := by
  simp [PredictionResult.with_threshold]

theorem lookupVal_triple (a s p : ℚ) :
    lookupVal ["actual", "score", "predict"] "score" [a, s, p] = s := rfl

theorem scoreCol_testOne (label : String) (df : DataFrame) (m : Model) :
    (testOne (((df.drop label).rows, df.getCol label), m)).table.getCol "score"
      = (df.drop label).rows.map (fun x =>
          if m.isLinearSVCPipeline then m.decision_function x
          else (m.predict_proba x).2) := by
  simp only [testOne, DataFrame.getCol, List.map_zipWith, lookupVal_triple]
  exact zipWith_proj_eq _ _ _ (by simp [getCol_length, drop_rows_length, DataFrame.getCol])
    (by simp)

theorem scoreCol_testOne_thresh (label : String) (df : DataFrame) (m : Model) (t : ℚ) :
    ((testOne (((df.drop label).rows, df.getCol label), m)).with_threshold t).table.getCol "score"
      = (df.drop label).rows.map (fun x =>
          if m.isLinearSVCPipeline then m.decision_function x
          else (m.predict_proba x).2) := by
  simp only [testOne, PredictionResult.with_threshold, DataFrame.getCol, List.map_map,
    List.map_zipWith, Function.comp, List.getD_cons_zero, List.getD_cons_succ,
    lookupVal_triple]
  exact zipWith_proj_eq _ _ _ (by simp [getCol_length, drop_rows_length, DataFrame.getCol])
    (by simp)

theorem internal_test_ok (tester : Tester) (models : List Model) (threshold : Option ℚ)
    (results : List PredictionResult)
    (h : Tester.internal_test tester models threshold = .ok results) :
    models.length = tester.dfs.length ∧
    (results = ((Tester.test_data tester.dfs tester.label_colname).zip models).map testOne ∨
     results = ((Tester.test_data tester.dfs tester.label_colname).zip models).map
       (fun x => (testOne x).with_threshold (threshold.getD 0))) := by
  unfold Tester.internal_test at h
  by_cases hlen : models.length = tester.dfs.length
  · refine ⟨hlen, ?_⟩
    simp only [hlen, ne_eq, not_true_eq_false, if_false, reduceIte] at h
    split at h
    · right
      simp only [Except.ok.injEq] at h
      subst h
      simp [List.map_map, Function.comp]
    · left
      simp only [Except.ok.injEq] at h
      exact h.symm
  · simp [hlen] at h

/-! ## Claim theorems -/

/-- C1: `Tester._test` raises exactly when the number of supplied models
differs from the number of test dataframes, and what it raises is the
generic count-mismatch error. -/
theorem C1_mismatch_raises (tester : Tester) (models : List Model)
    (threshold : Option ℚ) :
    ((∃ e, Tester.internal_test tester models threshold = .error e) ↔
      models.length ≠ tester.dfs.length) ∧
    (Tester.internal_test tester models threshold
        = .error (mismatchMsg models.length tester.dfs.length) ↔
      models.length ≠ tester.dfs.length) := by
  unfold Tester.internal_test
  by_cases hlen : models.length = tester.dfs.length
  · simp only [hlen, ne_eq, not_true_eq_false, if_false, reduceIte]
    constructor
    · constructor
      · rintro ⟨e, he⟩
        split at he <;> cases he
      · intro hc
        exact hc.elim
    · constructor
      · intro he
        split at he <;> cases he
      · intro hc
        exact hc.elim
  · simp [hlen]

/-- C7: the training-data and test-data iterations leave every
caller-supplied dataframe in its original state (the pandas `drop` and
column-selection calls are non-mutating). -/
theorem C7_inputs_unchanged (dfs : List DataFrame) (label : String) :
    (Trainer.trainingDataS dfs label).2 = dfs ∧ (Tester.testDataS dfs label).2 = dfs := by
  have h : ∀ l : List DataFrame, (l.map (trainingDataStep label)).map Prod.snd = l := by
    intro l
    induction l with
    | nil => rfl
    | cons d ds ih =>
      simpa [trainingDataStep, DataFrame.dropCall, DataFrame.getColCall] using ih
  exact ⟨h dfs, h dfs⟩

/-- C10: `Tester._test` with a threshold of zero behaves exactly like
`Tester._test` with no threshold, because the guard `if threshold:`
treats `0` as falsy. -/
theorem C10_zero_threshold (tester : Tester) (models : List Model) :
    Tester.internal_test tester models (some 0) = Tester.internal_test tester models none := by
  unfold Tester.internal_test
  simp [optionTruthy]

/-- C2: every result table returned by a successful `Tester._test` has
exactly the columns `actual`, `score`, `predict`, and as many rows as the
corresponding input test dataframe (the `with_threshold` reshaping of
`result.py`, not under `src/`, is spec-modelled as shape-preserving). -/
theorem C2_result_shape (tester : Tester) (models : List Model) (threshold : Option ℚ)
    (results : List PredictionResult)
    (h : Tester.internal_test tester models threshold = .ok results) :
    results.length = tester.dfs.length ∧
    ∀ (i : ℕ) (hi : i < results.length) (hd : i < tester.dfs.length),
      (results.get ⟨i, hi⟩).table.header = ["actual", "score", "predict"] ∧
      (results.get ⟨i, hi⟩).table.rows.length = (tester.dfs.get ⟨i, hd⟩).rows.length := by
  obtain ⟨hlen, hres⟩ := internal_test_ok tester models threshold results h
  have hzlen : ((Tester.test_data tester.dfs tester.label_colname).zip models).length
      = tester.dfs.length := by
    rw [List.length_zip, testData_eq, List.length_map, hlen, Nat.min_self]
  have hrlen : results.length = tester.dfs.length := by
    rcases hres with hres | hres <;> rw [hres, List.length_map, hzlen]
  refine ⟨hrlen, ?_⟩
  intro i hi hd
  rcases hres with hres | hres
  · subst hres
    simp only [List.get_eq_getElem, List.getElem_map, List.getElem_zip, testData_eq]
    exact ⟨rfl, testOne_rows_length tester.label_colname _ _⟩
  · subst hres
    simp only [List.get_eq_getElem, List.getElem_map, List.getElem_zip, testData_eq]
    refine ⟨rfl, ?_⟩
    rw [with_threshold_rows_length]
    exact testOne_rows_length tester.label_colname _ _

/-- C2, applied at a concrete tester and model. -/
theorem C2_result_shape_witness :
    Tester.internal_test testerEx [modelEx] none = .ok [prEx] ∧
    [prEx].length = testerEx.dfs.length ∧
    prEx.table.header = ["actual", "score", "predict"] ∧
    prEx.table.rows.length = dfEx.rows.length := by
  have hok : Tester.internal_test testerEx [modelEx] none = .ok [prEx] := by rfl
  obtain ⟨h1, h2⟩ := C2_result_shape testerEx [modelEx] none [prEx] hok
  exact ⟨hok, h1, (h2 0 (by decide) (by decide)).1, (h2 0 (by decide) (by decide)).2⟩

/-- C3: in every result of a successful `Tester._test`, the score column is
the model's `decision_function` output exactly when the model is a
`Pipeline` whose `svm` step is a `LinearSVC`, and the positive-class
column of `predict_proba` otherwise. -/
theorem C3_score_conditional (tester : Tester) (models : List Model) (threshold : Option ℚ)
    (results : List PredictionResult)
    (h : Tester.internal_test tester models threshold = .ok results) :
    ∀ (i : ℕ) (hi : i < results.length) (hm : i < models.length)
      (hd : i < tester.dfs.length),
      (results.get ⟨i, hi⟩).table.getCol "score"
        = ((tester.dfs.get ⟨i, hd⟩).drop tester.label_colname).rows.map (fun x =>
            if (models.get ⟨i, hm⟩).isLinearSVCPipeline
            then (models.get ⟨i, hm⟩).decision_function x
            else ((models.get ⟨i, hm⟩).predict_proba x).2) := by
  obtain ⟨hlen, hres⟩ := internal_test_ok tester models threshold results h
  intro i hi hm hd
  rcases hres with hres | hres
  · subst hres
    simp only [List.get_eq_getElem, List.getElem_map, List.getElem_zip, testData_eq]
    exact scoreCol_testOne tester.label_colname _ _
  · subst hres
    simp only [List.get_eq_getElem, List.getElem_map, List.getElem_zip, testData_eq]
    exact scoreCol_testOne_thresh tester.label_colname _ _ _

/-- C3, applied at a concrete tester and a plain (non-pipeline) model. -/
theorem C3_score_conditional_witness :
    Tester.internal_test testerEx [modelEx] none = .ok [prEx] ∧
    prEx.table.getCol "score"
      = (dfEx.drop "label").rows.map (fun x => (modelEx.predict_proba x).2) := by
  have hok : Tester.internal_test testerEx [modelEx] none = .ok [prEx] := by rfl
  have h := C3_score_conditional testerEx [modelEx] none [prEx] hok 0
    (by decide) (by decide) (by decide)
  refine ⟨hok, ?_⟩
  simpa [modelEx, Model.isLinearSVCPipeline] using h

/-- C4 (code bug): `Tester.test` accepts a `threshold` keyword but calls
`self._test(*models)` without forwarding it (`predict.py:196`), so the
threshold supplied by the caller is never applied: `test` behaves
identically for every threshold, and at the concrete failing input the
returned table still carries the raw `model.predict` column (here `5`),
not the thresholded one. -/
theorem C4_threshold_dropped :
    (∀ (tester : Tester) (models : List Model) (threshold : Option ℚ),
      Tester.test tester models threshold = Tester.test tester models none) ∧
    Tester.test testerEx [modelEx] (some (1/2)) = .ok (.single prEx) ∧
    prEx.with_threshold (1/2) ≠ prEx := by
  refine ⟨fun tester models threshold => rfl, by rfl, ?_⟩
  simp only [PredictionResult.with_threshold, prEx]
  intro hcontra
  norm_num at hcontra

theorem trainWith_count (fit : List (List ℚ) → List ℚ → Model) (t : Trainer)
    (h : t.dfs ≠ []) :
    ∃ o, Trainer.trainWith fit t = .ok o ∧ o.count = t.dfs.length := by
  obtain ⟨dfs, label, seed⟩ := t
  unfold Trainer.trainWith
  rw [trainingData_eq]
  cases dfs with
  | nil => exact absurd rfl h
  | cons d ds =>
    cases ds with
    | nil => exact ⟨.one _, rfl, rfl⟩
    | cons d2 ds2 =>
      refine ⟨.many _, rfl, ?_⟩
      simp [TrainOutput.count]

/-- C5 counterexample: a `Trainer` constructed with zero training
dataframes does not return any models at all — `models[0]` raises an
`IndexError` — so the returned-model count cannot equal the (zero)
dataset count there. -/
theorem C5_counterexample :
    Trainer.dummy lib0 trainer0 = .error "IndexError: list index out of range" ∧
    ¬ ∃ o, Trainer.dummy lib0 trainer0 = .ok o ∧ o.count = trainer0.dfs.length := by
  refine ⟨rfl, ?_⟩
  rintro ⟨o, ho, -⟩
  exact Except.noConfusion ho

/-- C5 (amended): for every `Trainer` constructed with at least one
training dataframe, each of the eight training methods returns exactly
one fitted model per training dataframe. -/
theorem C5_model_count (lib : Library) (t : Trainer) (h : t.dfs ≠ []) (c : ℚ)
    (d : Option ℕ) (k n1 n2 n3 : ℕ) :
    (∃ o, Trainer.dummy lib t = .ok o ∧ o.count = t.dfs.length) ∧
    (∃ o, Trainer.logistic_regression lib t c = .ok o ∧ o.count = t.dfs.length) ∧
    (∃ o, Trainer.decision_tree lib t d = .ok o ∧ o.count = t.dfs.length) ∧
    (∃ o, Trainer.k_nearest lib t k = .ok o ∧ o.count = t.dfs.length) ∧
    (∃ o, Trainer.linear_svm lib t c = .ok o ∧ o.count = t.dfs.length) ∧
    (∃ o, Trainer.forest lib t n1 = .ok o ∧ o.count = t.dfs.length) ∧
    (∃ o, Trainer.bagging lib t n2 = .ok o ∧ o.count = t.dfs.length) ∧
    (∃ o, Trainer.boosting lib t n3 = .ok o ∧ o.count = t.dfs.length) :=
  ⟨trainWith_count _ t h, trainWith_count _ t h, trainWith_count _ t h,
   trainWith_count _ t h, trainWith_count _ t h, trainWith_count _ t h,
   trainWith_count _ t h, trainWith_count _ t h⟩

/-- C5 (amended), applied at a concrete one-dataframe trainer. -/
theorem C5_model_count_witness :
    trainer1.dfs ≠ [] ∧
    ∃ o, Trainer.dummy lib0 trainer1 = .ok o ∧ o.count = trainer1.dfs.length := by
  have h : trainer1.dfs ≠ [] := by simp [trainer1]
  exact ⟨h, (C5_model_count lib0 trainer1 h 1 none 5 10 10 10).1⟩

theorem runMethods_exclude_irrelevant (parameters : List (String × HPDict))
    (exclude : List String)
    (ms : List (String × (HPDict → Except String TrainOutput))) :
    Trainer.runMethods parameters exclude ms = Trainer.runMethods parameters [] ms := by
  induction ms with
  | nil => rfl
  | cons nf rest ih => simp only [Trainer.runMethods, ih]

/-- C8: because the guard body at `predict.py:164` is the bare expression
`next` (not a `continue`), the `exclude` list has no effect: `train_all`
returns the same dictionary for any `exclude`, and (whenever there is at
least one training dataframe) that dictionary holds a model for every
one of the eight methods, in table order. -/
theorem C8_exclude_no_effect (lib : Library) (t : Trainer)
    (parameters : List (String × HPDict)) (exclude : List String) :
    Trainer.train_all lib t parameters exclude = Trainer.train_all lib t parameters [] ∧
    (t.dfs ≠ [] → ∃ l, Trainer.train_all lib t parameters exclude = .ok l ∧
      l.map Prod.fst = ["dummy", "logistic_regression", "decision_tree", "k_nearest",
        "linear_svm", "forest", "bagging", "boosting"]) := by
  refine ⟨runMethods_exclude_irrelevant parameters exclude _, fun h => ?_⟩
  obtain ⟨o1, h1, -⟩ := trainWith_count (lib.fitDummy t.seed) t h
  obtain ⟨o2, h2, -⟩ := trainWith_count
    (lib.fitLogistic (((parameters.lookup "logistic_regression").getD hpEmpty).c.getD 1)
      t.seed) t h
  obtain ⟨o3, h3, -⟩ := trainWith_count
    (lib.fitDecisionTree
      (((parameters.lookup "decision_tree").getD hpEmpty).max_depth.getD none) t.seed) t h
  obtain ⟨o4, h4, -⟩ := trainWith_count
    (lib.fitKNearest (((parameters.lookup "k_nearest").getD hpEmpty).k.getD 5)) t h
  obtain ⟨o5, h5, -⟩ := trainWith_count
    (lib.fitLinearSVM (((parameters.lookup "linear_svm").getD hpEmpty).c.getD 1)
      t.seed) t h
  obtain ⟨o6, h6, -⟩ := trainWith_count
    (lib.fitForest (((parameters.lookup "forest").getD hpEmpty).n_trees.getD 10)
      t.seed) t h
  obtain ⟨o7, h7, -⟩ := trainWith_count
    (lib.fitBagging (((parameters.lookup "bagging").getD hpEmpty).n_estimators.getD 10)
      t.seed) t h
  obtain ⟨o8, h8, -⟩ := trainWith_count
    (lib.fitBoosting (((parameters.lookup "boosting").getD hpEmpty).n_estimators.getD 10)
      t.seed) t h
  refine ⟨[("dummy", o1), ("logistic_regression", o2), ("decision_tree", o3),
    ("k_nearest", o4), ("linear_svm", o5), ("forest", o6), ("bagging", o7),
    ("boosting", o8)], ?_, rfl⟩
  simp only [Trainer.train_all, Trainer.methodTable, Trainer.runMethods, Trainer.dummy,
    Trainer.logistic_regression, Trainer.decision_tree, Trainer.k_nearest,
    Trainer.linear_svm, Trainer.forest, Trainer.bagging, Trainer.boosting,
    h1, h2, h3, h4, h5, h6, h7, h8]

/-- C8, applied at a concrete trainer with a nonempty exclude list. -/
theorem C8_exclude_no_effect_witness :
    trainer1.dfs ≠ [] ∧
    ∃ l, Trainer.train_all lib0 trainer1 [] ["dummy"] = .ok l ∧
      l.map Prod.fst = ["dummy", "logistic_regression", "decision_tree", "k_nearest",
        "linear_svm", "forest", "bagging", "boosting"] := by
  have h : trainer1.dfs ≠ [] := by simp [trainer1]
  exact ⟨h, (C8_exclude_no_effect lib0 trainer1 [] ["dummy"]).2 h⟩

/-- C9: a `Tester` holding more than one test dataframe makes `evaluate`
raise for any nonempty model dictionary, because `evaluate` always
passes exactly one model to `_test` (`result = self._test(model)[0]`,
`predict.py:235`), which then fails the count check. -/
theorem C9_evaluate_multisplit_raises (tester : Tester) (h : 1 < tester.dfs.length) :
    (∀ m : Model, Tester.internal_test tester [m] none
        = .error (mismatchMsg 1 tester.dfs.length)) ∧
    (∀ (model_dict : List (String × Model)) (thresholds : Option (List ℚ)),
      model_dict ≠ [] →
      ∃ e, Tester.evaluate tester model_dict thresholds = .error e) := by
  have hne : (1 : ℕ) ≠ tester.dfs.length := Nat.ne_of_lt h
  have h1 : ∀ m : Model, Tester.internal_test tester [m] none
      = .error (mismatchMsg 1 tester.dfs.length) := by
    intro m
    unfold Tester.internal_test
    rw [if_pos (by simpa using hne)]
    rfl
  refine ⟨h1, ?_⟩
  rintro (_ | ⟨nm, rest⟩) thresholds hne2
  · exact absurd rfl hne2
  · refine ⟨mismatchMsg 1 tester.dfs.length, ?_⟩
    simp [Tester.evaluate, Tester.evalLoop, h1 nm.2]

/-- C9, applied at a concrete two-dataframe tester. -/
theorem C9_evaluate_multisplit_raises_witness :
    1 < tester2.dfs.length ∧
    Tester.internal_test tester2 [modelEx] none
      = .error (mismatchMsg 1 tester2.dfs.length) ∧
    ∃ e, Tester.evaluate tester2 [("model", modelEx)] none = .error e := by
  have h2 : 1 < tester2.dfs.length := by decide
  obtain ⟨ha, hb⟩ := C9_evaluate_multisplit_raises tester2 h2
  exact ⟨h2, ha modelEx, hb [("model", modelEx)] none (by simp)⟩

theorem filter_zip_eq (header : List String) (row : List ℚ) (label : String)
    (h : row.length = header.length) :
    (header.filter (fun s => s ≠ label)).zip
        (((header.zip row).filter (fun p => p.1 ≠ label)).map Prod.snd)
      = (header.zip row).filter (fun p => p.1 ≠ label) := by
  induction header generalizing row with
  | nil => simp
  | cons s hs ih =>
    cases row with
    | nil => simp at h
    | cons v vs =>
      by_cases hcase : s = label
      · subst hcase
        simpa [List.filter_cons] using ih vs (by simpa using h)
      · simpa [List.filter_cons, hcase] using ih vs (by simpa using h)

/-- C6: the feature matrix handed to the library excludes the designated
label column (column for column: re-pairing the dropped header with a
dropped row recovers exactly the non-label entries of the original row,
and the label name is gone from the dropped header), while the label
vector is the label column itself, for both `_training_data` and
`_test_data`. -/
theorem C6_label_excluded (dfs : List DataFrame) (label : String) (df : DataFrame)
    (row : List ℚ) :
    Trainer.training_data dfs label
        = dfs.map (fun d => ((d.drop label).rows, d.getCol label)) ∧
    Tester.test_data dfs label
        = dfs.map (fun d => ((d.drop label).rows, d.getCol label)) ∧
    label ∉ (df.drop label).header ∧
    (row.length = df.header.length →
      (df.drop label).header.zip (dropRow df.header label row)
        = (df.header.zip row).filter (fun p => p.1 ≠ label)) := by
  refine ⟨trainingData_eq dfs label, testData_eq dfs label, ?_, ?_⟩
  · simp [DataFrame.drop, List.mem_filter]
  · intro h
    exact filter_zip_eq df.header row label h

/-- C6, applied at a concrete dataframe and row. -/
theorem C6_label_excluded_witness :
    Trainer.training_data [dfEx] "label"
        = [((dfEx.drop "label").rows, dfEx.getCol "label")] ∧
    "label" ∉ (dfEx.drop "label").header ∧
    (dfEx.drop "label").header.zip (dropRow dfEx.header "label" [2, 1])
        = (dfEx.header.zip [2, 1]).filter (fun p => p.1 ≠ "label") := by
  obtain ⟨h1, -, h3, h4⟩ := C6_label_excluded [dfEx] "label" dfEx [2, 1]
  exact ⟨by simpa using h1, h3, h4 (by decide)⟩
